import Mathlib

/-
  Verification of the kryten-llm response-admission pipeline.

  Components whose Python sources are present (service.py, config.py,
  formatter.py, llm_manager.py) are embedded from the source.  The trigger
  engine, rate limiter and context manager ship only with their tests and
  callers; those components are modelled from the specification, as marked
  on each definition.

  Strings are embedded as lists of characters; machine integers do not
  overflow in any of the embedded code paths, so Nat / Int / Rat are used
  directly.
-/

attribute [local semireducible] Rat.sub Rat.add Rat.mul Rat.inv

/- ===================== Character and list utilities ===================== -/

/-- Whitespace test (space, tab, newline, carriage return). -/
def isWS (c : Char) : Bool :=
  c == ' ' || c.toNat == 9 || c.toNat == 10 || c.toNat == 13

/-- Punctuation adjacent to an activator that the trigger engine strips. -/
def isPunct (c : Char) : Bool :=
  c == ',' || c == '.' || c == '!' || c == '?' || c == ':' || c == ';'

/-- Case-insensitive test that the first list is an initial segment of the second. -/
def isPrefixCI : List Char → List Char → Bool
  | [], _ => true
  | _ :: _, [] => false
  | p :: ps, c :: cs => (p.toLower == c.toLower) && isPrefixCI ps cs

/-- Index of the first case-insensitive occurrence of a pattern, if any. -/
def findCI (pat : List Char) : List Char → Option Nat
  | [] => if pat.isEmpty then some 0 else none
  | c :: cs =>
    if isPrefixCI pat (c :: cs) then some 0
    else (findCI pat cs).map (· + 1)

/-- Case-insensitive substring occurrence test. -/
def occursCI (pat s : List Char) : Bool := (findCI pat s).isSome

/-- Case-insensitive equality of two character lists. -/
def eqCI (a b : List Char) : Bool :=
  a.map Char.toLower == b.map Char.toLower

/-- Collapse every run of whitespace to a single space. -/
def collapseWS : List Char → List Char
  | [] => []
  | c :: cs =>
    let acc := collapseWS cs
    if isWS c then
      match acc with
      | [] => [' ']
      | d :: _ => if d == ' ' then acc else ' ' :: acc
    else c :: acc

/-- Drop leading and trailing whitespace. -/
def trimWS (l : List Char) : List Char :=
  ((l.dropWhile isWS).reverse.dropWhile isWS).reverse

/-- Normalize whitespace: collapse runs to single spaces and trim the ends. -/
def tidy (l : List Char) : List Char := trimWS (collapseWS l)

theorem dropWhile_len_le (p : Char → Bool) (l : List Char) :
    (l.dropWhile p).length ≤ l.length := by
  induction l with
  | nil => simp [List.dropWhile]
  | cons c cs ih =>
    simp only [List.dropWhile]
    cases p c
    · simp
    · simpa using le_trans ih (Nat.le_succ _)

theorem collapseWS_len_le (l : List Char) : (collapseWS l).length ≤ l.length := by
  induction l with
  | nil => simp [collapseWS]
  | cons c cs ih =>
    simp only [collapseWS]
    cases hc : isWS c
    · simpa using Nat.succ_le_succ ih
    · simp only [if_pos rfl]
      cases hacc : collapseWS cs with
      | nil => simp
      | cons d ds =>
        by_cases hd : (d == ' ') = true
        · simp only [hd, if_true]
          rw [hacc] at ih
          simp at ih ⊢
          omega
        · simp only [Bool.not_eq_true] at hd
          simp only [hd, if_false]
          rw [hacc] at ih
          simp at ih ⊢
          omega

theorem trimWS_len_le (l : List Char) : (trimWS l).length ≤ l.length := by
  unfold trimWS
  calc ((l.dropWhile isWS).reverse.dropWhile isWS).reverse.length
      = ((l.dropWhile isWS).reverse.dropWhile isWS).length := List.length_reverse _
    _ ≤ (l.dropWhile isWS).reverse.length := dropWhile_len_le _ _
    _ = (l.dropWhile isWS).length := List.length_reverse _
    _ ≤ l.length := dropWhile_len_le _ _

theorem tidy_len_le (l : List Char) : (tidy l).length ≤ l.length :=
  le_trans (trimWS_len_le _) (collapseWS_len_le _)

theorem isPrefixCI_len_le (p l : List Char) (h : isPrefixCI p l = true) :
    p.length ≤ l.length := by
  induction p generalizing l with
  | nil => simp
  | cons a ps ih =>
    cases l with
    | nil => simp [isPrefixCI] at h
    | cons c cs =>
      simp only [isPrefixCI, Bool.and_eq_true] at h
      simpa using ih cs h.2

theorem findCI_bound (pat s : List Char) (i : Nat) (h : findCI pat s = some i) :
    i + pat.length ≤ s.length := by
  induction s generalizing i with
  | nil =>
    simp only [findCI] at h
    by_cases hp : pat.isEmpty
    · simp only [hp, if_true, Option.some.injEq] at h
      subst h
      simp [List.isEmpty_iff.mp hp]
    · simp [hp] at h
  | cons c cs ih =>
    simp only [findCI] at h
    by_cases hpre : isPrefixCI pat (c :: cs) = true
    · simp only [hpre, if_true, Option.some.injEq] at h
      subst h
      simpa using isPrefixCI_len_le pat (c :: cs) hpre
    · simp only [Bool.not_eq_true] at hpre
      simp only [hpre, Bool.false_eq_true, if_false] at h
      cases hf : findCI pat cs with
      | none =>
        rw [hf] at h
        exact absurd h (by simp [Option.map_none'])
      | some j =>
        rw [hf] at h
        simp only [Option.map_some', Option.some.injEq] at h
        subst h
        have := ih j hf
        simp
        omega

/- ===================== Trigger engine (modelled from the spec) ===================== -/

/-- Kind of activation decided by the trigger engine. -/
inductive TKind where
  | mention
  | triggerWord
deriving DecidableEq

/-- Modelled from the spec: the TriggerResult / ActivationOutcome record produced by
the trigger engine (models/events.py is not under src; fields follow the tests and
ActivationOutcome in the data model section of the spec). -/
structure TriggerResult where
  triggered : Bool
  triggerType : Option TKind
  triggerName : Option String
  priority : Nat
  cleanedMessage : List Char
  context : Option String
deriving DecidableEq

/-- Trigger definition as configured (from models/config.py, class Trigger). -/
structure TriggerCfg where
  name : String
  patterns : List String
  probability : ℚ
  cooldownSeconds : Int
  context : String
  responseStyle : Option String
  maxResponsesPerHour : Int
  priority : Int
  enabled : Bool
  llmProvider : Option String
deriving DecidableEq

/-- Greeting words stripped together with a matched mention alias. -/
def greetWords : List (List Char) := ["hey".data, "hi".data, "yo".data]

/-- Modelled from the spec: when the character of a message directly before the
matched alias is a greeting word, it is removed together with the alias (this makes
the end-to-end scenario of the spec hold: the message starting with hey plus the
alias cleans to the remainder of the message). -/
def stripGreeting (pre : List Char) : List Char :=
  let r := pre.reverse.dropWhile isWS
  let w := (r.takeWhile (fun c => !isWS c)).reverse
  let rest := r.dropWhile (fun c => !isWS c)
  if greetWords.any (fun g => eqCI g w) then rest.reverse else pre

/-- Modelled from the spec: remove the first case-insensitive occurrence of the
matched alias, the punctuation immediately following it, a greeting word
immediately preceding it, and normalize whitespace. -/
def removeStep (al s : List Char) : List Char :=
  match findCI al s with
  | none => s
  | some i =>
    tidy (stripGreeting (s.take i) ++ (s.drop (i + al.length)).dropWhile isPunct)

/-- Modelled from the spec: repeat alias removal until no occurrence of the alias
remains (the spec requires the cleaned text to contain no instance of the alias). -/
def cleanLoop (al : List Char) : Nat → List Char → List Char
  | 0, s => s
  | Nat.succ n, s => if occursCI al s then cleanLoop al n (removeStep al s) else s

/-- Cleaned text for a mention: alias removal iterated with sufficient fuel. -/
def cleanMention (al msg : List Char) : List Char :=
  cleanLoop al (msg.length + 1) msg

theorem removeStep_lt (al s : List Char) (hal : al ≠ []) (h : occursCI al s = true) :
    (removeStep al s).length < s.length := by
  unfold occursCI at h
  rw [Option.isSome_iff_exists] at h
  obtain ⟨i, hi⟩ := h
  have hstep : removeStep al s =
      tidy (stripGreeting (s.take i) ++ (s.drop (i + al.length)).dropWhile isPunct) := by
    simp only [removeStep, hi]
  rw [hstep]
  have hb := findCI_bound al s i hi
  have hto := tidy_len_le (stripGreeting (s.take i) ++ (s.drop (i + al.length)).dropWhile isPunct)
  rw [List.length_append] at hto
  have h1 : (stripGreeting (s.take i)).length ≤ (s.take i).length := by
    unfold stripGreeting
    by_cases hg : (greetWords.any fun g => eqCI g ((((s.take i).reverse.dropWhile isWS).takeWhile fun c => !isWS c).reverse)) = true
    · simp only [hg, if_true]
      calc ((((s.take i).reverse.dropWhile isWS).dropWhile fun c => !isWS c)).reverse.length
          = (((s.take i).reverse.dropWhile isWS).dropWhile fun c => !isWS c).length :=
            List.length_reverse _
        _ ≤ ((s.take i).reverse.dropWhile isWS).length := dropWhile_len_le _ _
        _ ≤ (s.take i).reverse.length := dropWhile_len_le _ _
        _ = (s.take i).length := List.length_reverse _
    · simp only [Bool.not_eq_true] at hg
      simp [hg]
  have h2 : ((s.drop (i + al.length)).dropWhile isPunct).length ≤ (s.drop (i + al.length)).length :=
    dropWhile_len_le _ _
  have h3 : (s.take i).length = min i s.length := List.length_take i s
  have h4 : (s.drop (i + al.length)).length = s.length - (i + al.length) := List.length_drop _ _
  have h5 : 0 < al.length := List.length_pos.mpr hal
  omega

theorem cleanLoop_no_occurs (al : List Char) (hal : al ≠ []) :
    ∀ (fuel : Nat) (s : List Char), s.length < fuel →
      occursCI al (cleanLoop al fuel s) = false := by
  intro fuel
  induction fuel with
  | zero => intro s h; omega
  | succ n ih =>
    intro s h
    show occursCI al (cleanLoop al (Nat.succ n) s) = false
    by_cases ho : occursCI al s = true
    · have : cleanLoop al (Nat.succ n) s = cleanLoop al n (removeStep al s) := by
        simp [cleanLoop, ho]
      rw [this]
      have hlt := removeStep_lt al s hal ho
      exact ih (removeStep al s) (by omega)
    · simp only [Bool.not_eq_true] at ho
      have : cleanLoop al (Nat.succ n) s = s := by
        simp [cleanLoop, ho]
      rw [this]
      exact ho

/-- No-activation outcome (priority 0). -/
def noneOutcome (msg : List Char) : TriggerResult :=
  { triggered := false, triggerType := none, triggerName := none,
    priority := 0, cleanedMessage := msg, context := none }

/-- Priorities from highest to lowest, used to order trigger definitions. -/
def prioritiesDesc : List Int := [10, 9, 8, 7, 6, 5, 4, 3, 2, 1]

/-- Modelled from the spec: stable ordering of trigger definitions by priority
descending (ties keep definition order). -/
def sortTriggersDesc (ts : List TriggerCfg) : List TriggerCfg :=
  prioritiesDesc.foldr (fun p acc => ts.filter (fun t => t.priority == p) ++ acc) []

/-- First matching pattern of a definition, patterns tried in order, matched as
case-insensitive literals against the message text. -/
def firstPatternMatch (msg : List Char) (pats : List String) : Option String :=
  pats.find? (fun p => occursCI p.data msg)

/-- Modelled from the spec: trigger-word evaluation over definitions already ordered
by priority descending; a failed probability draw continues with the next
definition. The random draw is injected as a function from trigger name to draw
success, following the design note on injectable randomness. -/
def evalTriggerWords (msg : List Char) (draw : String → Bool) :
    List TriggerCfg → TriggerResult
  | [] => noneOutcome msg
  | t :: ts =>
    if t.enabled then
      match firstPatternMatch msg t.patterns with
      | some p =>
        if draw t.name then
          { triggered := true, triggerType := some TKind.triggerWord,
            triggerName := some t.name, priority := t.priority.toNat,
            cleanedMessage := cleanMention p.data msg, context := some t.context }
        else evalTriggerWords msg draw ts
      | none => evalTriggerWords msg draw ts
    else evalTriggerWords msg draw ts

/-- Modelled from the spec: trigger_engine.py is not under src. Mention detection
over the alias set (character name plus name variations, first occurring alias
wins) happens first and short-circuits trigger-word evaluation unconditionally;
a mention outcome carries priority 10, no context, and the cleaned message. -/
def checkTriggers (characterName : String) (nameVariations : List String)
    (triggers : List TriggerCfg) (draw : String → Bool) (msg : List Char) :
    TriggerResult :=
  match (characterName :: nameVariations).find? (fun al => occursCI al.data msg) with
  | some al =>
    { triggered := true, triggerType := some TKind.mention, triggerName := some al,
      priority := 10, cleanedMessage := cleanMention al.data msg, context := none }
  | none => evalTriggerWords msg draw (sortTriggersDesc triggers)

/- ===================== Claims C2 and C7 ===================== -/

/-- C2: for every message in which some configured alias of the character name
occurs case-insensitively (the matched alias being the first such alias, found by
the engine), checkTriggers returns a mention outcome with priority 10 whose
cleaned text contains no case-insensitive instance of that alias; this holds for
every list of trigger definitions and every random draw, so mention detection
pre-empts trigger-word detection. -/
theorem mention_preempts_and_cleans (characterName : String)
    (nameVariations : List String) (triggers : List TriggerCfg)
    (draw : String → Bool) (msg : List Char) (al : String)
    (hfind : (characterName :: nameVariations).find?
      (fun a => occursCI a.data msg) = some al)
    (hal : al.data ≠ []) :
    (checkTriggers characterName nameVariations triggers draw msg).triggered = true ∧
    (checkTriggers characterName nameVariations triggers draw msg).triggerType
      = some TKind.mention ∧
    (checkTriggers characterName nameVariations triggers draw msg).priority = 10 ∧
    (checkTriggers characterName nameVariations triggers draw msg).triggerName
      = some al ∧
    occursCI al.data
      (checkTriggers characterName nameVariations triggers draw msg).cleanedMessage
      = false := by
  unfold checkTriggers
  rw [hfind]
  refine ⟨rfl, rfl, rfl, rfl, ?_⟩
  unfold cleanMention
  exact cleanLoop_no_occurs al.data hal (msg.length + 1) msg (by omega)

/-- C2 witness: the default alias configuration on a message containing the alias
cynthia together with a matching enabled trigger definition still yields a
mention with alias-free cleaned text. -/
theorem mention_preempts_and_cleans_witness :
    (checkTriggers "CynthiaRothbot" ["cynthia", "rothrock", "cynthiarothbot"]
      [{ name := "kung_fu", patterns := ["kung fu"], probability := 1,
         cooldownSeconds := 0, context := "ctx", responseStyle := none,
         maxResponsesPerHour := 10, priority := 5, enabled := true,
         llmProvider := none }]
      (fun _ => true) "hey cynthia, I love kung fu!".data).triggered = true ∧
    (checkTriggers "CynthiaRothbot" ["cynthia", "rothrock", "cynthiarothbot"]
      [{ name := "kung_fu", patterns := ["kung fu"], probability := 1,
         cooldownSeconds := 0, context := "ctx", responseStyle := none,
         maxResponsesPerHour := 10, priority := 5, enabled := true,
         llmProvider := none }]
      (fun _ => true) "hey cynthia, I love kung fu!".data).triggerType
      = some TKind.mention ∧
    (checkTriggers "CynthiaRothbot" ["cynthia", "rothrock", "cynthiarothbot"]
      [{ name := "kung_fu", patterns := ["kung fu"], probability := 1,
         cooldownSeconds := 0, context := "ctx", responseStyle := none,
         maxResponsesPerHour := 10, priority := 5, enabled := true,
         llmProvider := none }]
      (fun _ => true) "hey cynthia, I love kung fu!".data).priority = 10 ∧
    (checkTriggers "CynthiaRothbot" ["cynthia", "rothrock", "cynthiarothbot"]
      [{ name := "kung_fu", patterns := ["kung fu"], probability := 1,
         cooldownSeconds := 0, context := "ctx", responseStyle := none,
         maxResponsesPerHour := 10, priority := 5, enabled := true,
         llmProvider := none }]
      (fun _ => true) "hey cynthia, I love kung fu!".data).triggerName
      = some "cynthia" ∧
    occursCI "cynthia".data
      (checkTriggers "CynthiaRothbot" ["cynthia", "rothrock", "cynthiarothbot"]
        [{ name := "kung_fu", patterns := ["kung fu"], probability := 1,
           cooldownSeconds := 0, context := "ctx", responseStyle := none,
           maxResponsesPerHour := 10, priority := 5, enabled := true,
           llmProvider := none }]
        (fun _ => true) "hey cynthia, I love kung fu!".data).cleanedMessage
      = false :=
  mention_preempts_and_cleans "CynthiaRothbot"
    ["cynthia", "rothrock", "cynthiarothbot"]
    [{ name := "kung_fu", patterns := ["kung fu"], probability := 1,
       cooldownSeconds := 0, context := "ctx", responseStyle := none,
       maxResponsesPerHour := 10, priority := 5, enabled := true,
       llmProvider := none }]
    (fun _ => true) "hey cynthia, I love kung fu!".data "cynthia"
    (by decide) (by decide)

/-- C7: the end-to-end mention scenario: the message hey cynthia, how are you?
with configured alias cynthia produces exactly the outcome with triggered true,
kind mention, priority 10 and cleaned text how are you? -/
theorem mention_scenario_exact :
    checkTriggers "CynthiaRothbot" ["cynthia", "rothrock", "cynthiarothbot"] []
      (fun _ => false) "hey cynthia, how are you?".data =
    { triggered := true, triggerType := some TKind.mention,
      triggerName := some "cynthia", priority := 10,
      cleanedMessage := "how are you?".data, context := none } := by
  decide

/- ===================== Rate limiter (modelled from the spec) ===================== -/

/-- Rate limiting configuration (from models/config.py, class RateLimits; the admin
rank threshold is named in the spec but absent from the configuration model under
src, so it is carried here as an explicit field, modelled from the spec). -/
structure RateLimitsCfg where
  globalMaxPerMinute : Nat
  globalMaxPerHour : Nat
  globalCooldownSeconds : ℚ
  userMaxPerHour : Nat
  userCooldownSeconds : ℚ
  mentionCooldownSeconds : ℚ
  adminCooldownMultiplier : ℚ
  adminLimitMultiplier : ℚ
  adminRankThreshold : Int
deriving DecidableEq

/-- Default values of RateLimits in models/config.py. -/
def defaultRateLimits : RateLimitsCfg :=
  { globalMaxPerMinute := 2, globalMaxPerHour := 20, globalCooldownSeconds := 15,
    userMaxPerHour := 5, userCooldownSeconds := 60, mentionCooldownSeconds := 120,
    adminCooldownMultiplier := mkRat 1 2, adminLimitMultiplier := 2,
    adminRankThreshold := 1 }

/-- Modelled from the spec: rate_limiter.py is not under src. Scope counter state:
timestamp lists (most recent first) for the global scopes and per-key timestamp
lists for user, mention and trigger scopes. -/
structure RLState where
  globalSends : List ℚ
  userSends : List (String × List ℚ)
  mentionSends : List (String × List ℚ)
  triggerSends : List (String × List ℚ)
deriving DecidableEq

/-- Fresh rate limiter state. -/
def emptyRLState : RLState := ⟨[], [], [], []⟩

/-- Timestamps recorded for a key (empty when the key was never recorded). -/
def lookupTimes (m : List (String × List ℚ)) (k : String) : List ℚ :=
  match m.find? (fun e => e.1 == k) with
  | some e => e.2
  | none => []

/-- Record one timestamp for a key. -/
def addTime (m : List (String × List ℚ)) (k : String) (t : ℚ) :
    List (String × List ℚ) :=
  match m.find? (fun e => e.1 == k) with
  | some _ => m.map (fun e => if e.1 == k then (e.1, t :: e.2) else e)
  | none => m ++ [(k, [t])]

/-- Rate limit scope identifiers, as named in the spec. -/
inductive Scope where
  | globalCooldown
  | globalPerMinute
  | globalPerHour
  | userPerHour
  | userCooldown
  | mentionCooldown
  | triggerCooldown
  | triggerPerHour
deriving DecidableEq

/-- Decision of an admission check (RateLimitDecision in the data model). -/
structure RateLimitDecision where
  allowed : Bool
  reason : Option Scope
  retryAfter : ℚ
deriving DecidableEq

/-- One admission query: configuration, trigger definitions, scope state and the
per-message inputs of check (username, rank, outcome, current time). -/
structure RLQuery where
  cfg : RateLimitsCfg
  triggers : List TriggerCfg
  st : RLState
  username : String
  rank : Int
  tr : TriggerResult
  now : ℚ
deriving DecidableEq

/-- Admin test: rank strictly above the configured threshold. -/
def isAdmin (q : RLQuery) : Bool := q.cfg.adminRankThreshold < q.rank

/-- Effective cooldown threshold: multiplied by the admin cooldown multiplier for
admins (spec: admin adjustment before evaluation). -/
def effCd (q : RLQuery) (cd : ℚ) : ℚ :=
  if isAdmin q then cd * q.cfg.adminCooldownMultiplier else cd

/-- Effective count cap: multiplied by the admin limit multiplier for admins. -/
def effCap (q : RLQuery) (cap : Nat) : ℚ :=
  if isAdmin q then (cap : ℚ) * q.cfg.adminLimitMultiplier else (cap : ℚ)

/-- Remaining wait of a cooldown scope: blocked when the time since the most
recent send is below the threshold; the wait is the remainder. -/
def cooldownWait (cd : ℚ) (ts : List ℚ) (now : ℚ) : Option ℚ :=
  match ts.head? with
  | none => none
  | some t => if now - t < cd then some (cd - (now - t)) else none

/-- Minimum of a list with a default for the empty list. -/
def minD (d : ℚ) (l : List ℚ) : ℚ := l.foldr min d

/-- Remaining wait of a sliding-window scope: timestamps older than the window are
pruned, and the scope blocks when the pruned count reaches the cap; the wait is
the time until the oldest in-window timestamp leaves the window. -/
def windowWait (cap : ℚ) (window : ℚ) (ts : List ℚ) (now : ℚ) : Option ℚ :=
  let inWin := ts.filter (fun t => now - t < window)
  if cap ≤ (inWin.length : ℚ) then some (minD now inWin + window - now) else none

/-- Trigger definition referenced by the outcome, if any. -/
def trDef (q : RLQuery) : Option TriggerCfg :=
  q.triggers.find? (fun t => t.name == q.tr.triggerName.getD "")

/-- Remaining wait of one scope (none when the scope does not block). -/
def scopeWait (q : RLQuery) : Scope → Option ℚ
  | Scope.globalCooldown =>
    cooldownWait (effCd q q.cfg.globalCooldownSeconds) q.st.globalSends q.now
  | Scope.globalPerMinute =>
    windowWait (effCap q q.cfg.globalMaxPerMinute) 60 q.st.globalSends q.now
  | Scope.globalPerHour =>
    windowWait (effCap q q.cfg.globalMaxPerHour) 3600 q.st.globalSends q.now
  | Scope.userPerHour =>
    windowWait (effCap q q.cfg.userMaxPerHour) 3600
      (lookupTimes q.st.userSends q.username) q.now
  | Scope.userCooldown =>
    cooldownWait (effCd q q.cfg.userCooldownSeconds)
      (lookupTimes q.st.userSends q.username) q.now
  | Scope.mentionCooldown =>
    cooldownWait (effCd q q.cfg.mentionCooldownSeconds)
      (lookupTimes q.st.mentionSends q.username) q.now
  | Scope.triggerCooldown =>
    match trDef q with
    | none => none
    | some t =>
      cooldownWait (effCd q (t.cooldownSeconds : ℚ))
        (lookupTimes q.st.triggerSends t.name) q.now
  | Scope.triggerPerHour =>
    match trDef q with
    | none => none
    | some t =>
      windowWait (effCap q t.maxResponsesPerHour.toNat) 3600
        (lookupTimes q.st.triggerSends t.name) q.now

/-- Scopes evaluated for an outcome kind, in the fixed order of the spec. -/
def scopeOrder (k : Option TKind) : List Scope :=
  [Scope.globalCooldown, Scope.globalPerMinute, Scope.globalPerHour,
   Scope.userPerHour, Scope.userCooldown] ++
    match k with
    | some TKind.mention => [Scope.mentionCooldown]
    | some TKind.triggerWord => [Scope.triggerCooldown, Scope.triggerPerHour]
    | none => []

/-- First blocking scope along a list of scopes, with its wait. -/
def firstBlockingAux (q : RLQuery) : List Scope → Option (Scope × ℚ)
  | [] => none
  | sc :: rest =>
    match scopeWait q sc with
    | some w => some (sc, w)
    | none => firstBlockingAux q rest

/-- First blocking scope of a query, in the fixed evaluation order. -/
def firstBlocking (q : RLQuery) : Option (Scope × ℚ) :=
  firstBlockingAux q (scopeOrder q.tr.triggerType)

/-- Modelled from the spec: check evaluates the scopes in the fixed order and
short-circuits at the first violation; a denial carries that scope as reason and
its remaining wait as retry_after. -/
def checkRateLimit (q : RLQuery) : RateLimitDecision :=
  match firstBlocking q with
  | some (sc, w) => { allowed := false, reason := some sc, retryAfter := w }
  | none => { allowed := true, reason := none, retryAfter := 0 }

/-- Modelled from the spec: commit appends the current timestamp to the global and
per-user scope state, and to the mention or trigger scope state selected by the
outcome kind. -/
def recordResponse (st : RLState) (username : String) (tr : TriggerResult)
    (now : ℚ) : RLState :=
  let st1 := { st with globalSends := now :: st.globalSends,
                       userSends := addTime st.userSends username now }
  match tr.triggerType with
  | some TKind.mention =>
    { st1 with mentionSends := addTime st1.mentionSends username now }
  | some TKind.triggerWord =>
    { st1 with triggerSends := addTime st1.triggerSends (tr.triggerName.getD "") now }
  | none => st1

/-- Per the spec words in the data model section: the waits of all scopes violated
at the moment of the check. -/
def violatedWaits (q : RLQuery) : List ℚ :=
  (scopeOrder q.tr.triggerType).filterMap (scopeWait q)

/-- Per the spec words in the data model section: the largest remaining wait among
the violated scopes. -/
def maxViolatedWait (q : RLQuery) : ℚ := (violatedWaits q).foldr max 0

theorem firstBlockingAux_none (q : RLQuery) (l : List Scope)
    (h : firstBlockingAux q l = none) : ∀ sc ∈ l, scopeWait q sc = none := by
  induction l with
  | nil => intro sc hsc; simp at hsc
  | cons sc0 rest ih =>
    intro sc hsc
    simp only [firstBlockingAux] at h
    cases h0 : scopeWait q sc0 with
    | some w => rw [h0] at h; simp at h
    | none =>
      rw [h0] at h
      simp only at h
      rcases List.mem_cons.mp hsc with hl | hr
      · subst hl; exact h0
      · exact ih h sc hr

theorem firstBlockingAux_some (q : RLQuery) (l : List Scope) (sc : Scope) (w : ℚ)
    (h : firstBlockingAux q l = some (sc, w)) :
    scopeWait q sc = some w ∧
      ∃ l1 l2, l = l1 ++ sc :: l2 ∧ ∀ s2 ∈ l1, scopeWait q s2 = none := by
  induction l with
  | nil => simp [firstBlockingAux] at h
  | cons sc0 rest ih =>
    simp only [firstBlockingAux] at h
    cases h0 : scopeWait q sc0 with
    | some w0 =>
      rw [h0] at h
      simp only [Option.some.injEq, Prod.mk.injEq] at h
      obtain ⟨rfl, rfl⟩ := h
      exact ⟨h0, [], rest, rfl, by intro s2 hs2; simp at hs2⟩
    | none =>
      rw [h0] at h
      simp only at h
      obtain ⟨hw, l1, l2, hl, hpre⟩ := ih h
      refine ⟨hw, sc0 :: l1, l2, by simp [hl], ?_⟩
      intro s2 hs2
      rcases List.mem_cons.mp hs2 with hx | hx
      · subst hx; exact h0
      · exact hpre s2 hx

theorem cooldownWait_nonneg (cd : ℚ) (ts : List ℚ) (now w : ℚ)
    (h : cooldownWait cd ts now = some w) : 0 ≤ w := by
  unfold cooldownWait at h
  cases hh : ts.head? with
  | none => rw [hh] at h; simp at h
  | some t =>
    rw [hh] at h
    dsimp only at h
    by_cases hlt : now - t < cd
    · rw [if_pos hlt] at h
      simp only [Option.some.injEq] at h
      subst h
      linarith
    · rw [if_neg hlt] at h
      simp at h

theorem minD_choice (d : ℚ) (l : List ℚ) : minD d l = d ∨ minD d l ∈ l := by
  induction l with
  | nil => exact Or.inl rfl
  | cons x xs ih =>
    have hstep : minD d (x :: xs) = min x (minD d xs) := rfl
    rcases min_choice x (minD d xs) with h | h
    · right
      rw [hstep, h]
      exact List.mem_cons_self x xs
    · rcases ih with h2 | h2
      · left
        rw [hstep, h, h2]
      · right
        rw [hstep, h]
        exact List.mem_cons_of_mem x h2

theorem windowWait_nonneg (cap window : ℚ) (ts : List ℚ) (now w : ℚ)
    (hwin : 0 < window) (h : windowWait cap window ts now = some w) : 0 ≤ w := by
  simp only [windowWait] at h
  by_cases hcap : cap ≤ ((ts.filter (fun t => now - t < window)).length : ℚ)
  · rw [if_pos hcap] at h
    simp only [Option.some.injEq] at h
    subst h
    rcases minD_choice now (ts.filter (fun t => now - t < window)) with hm | hm
    · rw [hm]; linarith
    · have hc := (List.mem_filter.mp hm).2
      have hlt : now - minD now (ts.filter (fun t => now - t < window)) < window :=
        of_decide_eq_true hc
      linarith
  · rw [if_neg hcap] at h
    simp at h

theorem scopeWait_nonneg (q : RLQuery) (sc : Scope) (w : ℚ)
    (h : scopeWait q sc = some w) : 0 ≤ w := by
  cases sc with
  | globalCooldown => exact cooldownWait_nonneg _ _ _ _ h
  | globalPerMinute => exact windowWait_nonneg _ _ _ _ _ (by norm_num) h
  | globalPerHour => exact windowWait_nonneg _ _ _ _ _ (by norm_num) h
  | userPerHour => exact windowWait_nonneg _ _ _ _ _ (by norm_num) h
  | userCooldown => exact cooldownWait_nonneg _ _ _ _ h
  | mentionCooldown => exact cooldownWait_nonneg _ _ _ _ h
  | triggerCooldown =>
    simp only [scopeWait] at h
    cases htd : trDef q with
    | none => rw [htd] at h; simp at h
    | some t =>
      rw [htd] at h
      exact cooldownWait_nonneg _ _ _ _ h
  | triggerPerHour =>
    simp only [scopeWait] at h
    cases htd : trDef q with
    | none => rw [htd] at h; simp at h
    | some t =>
      rw [htd] at h
      exact windowWait_nonneg _ _ _ _ _ (by norm_num) h

/- ===================== Claims C1 and C8 ===================== -/

/-- Mention outcome used by the rate limiter scenarios. -/
def mentionTR : TriggerResult :=
  { triggered := true, triggerType := some TKind.mention,
    triggerName := some "cynthia", priority := 10, cleanedMessage := [],
    context := none }

/-- First admitted-outcome check of the scenario: fresh state at time 0. -/
def rlScenarioQ1 : RLQuery :=
  { cfg := defaultRateLimits, triggers := [], st := emptyRLState,
    username := "u1", rank := 1, tr := mentionTR, now := 0 }

/-- State after the first commit. -/
def rlScenarioS1 : RLState := recordResponse emptyRLState "u1" mentionTR 0

/-- Second check, twenty seconds later, different user. -/
def rlScenarioQ2 : RLQuery :=
  { cfg := defaultRateLimits, triggers := [], st := rlScenarioS1,
    username := "u2", rank := 1, tr := mentionTR, now := 20 }

/-- State after the second commit. -/
def rlScenarioS2 : RLState := recordResponse rlScenarioS1 "u2" mentionTR 20

/-- Third check, forty seconds in, still within the first minute. -/
def rlScenarioQ3 : RLQuery :=
  { cfg := defaultRateLimits, triggers := [], st := rlScenarioS2,
    username := "u3", rank := 1, tr := mentionTR, now := 40 }

/-- C1: every check evaluates the scopes of the outcome kind in the fixed order,
short-circuiting at the first violation: a denial names a violated scope whose
wait is the reported retry_after while every earlier scope in the order is not
violated, and an allowance means no scope in the order is violated; and with
global_max_per_minute = 2 on a fresh state, three admitted-outcome checks within
one minute, each followed by a commit when allowed, yield allow, allow, deny with
reason global-per-minute and positive retry_after. -/
theorem check_order_and_per_minute_scenario :
    (∀ (q : RLQuery) (sc : Scope),
        (checkRateLimit q).reason = some sc →
          scopeWait q sc = some (checkRateLimit q).retryAfter ∧
          ∃ l1 l2, scopeOrder q.tr.triggerType = l1 ++ sc :: l2 ∧
            ∀ s2 ∈ l1, scopeWait q s2 = none) ∧
    (∀ q : RLQuery, (checkRateLimit q).allowed = true →
        ∀ sc ∈ scopeOrder q.tr.triggerType, scopeWait q sc = none) ∧
    (checkRateLimit rlScenarioQ1).allowed = true ∧
    (checkRateLimit rlScenarioQ2).allowed = true ∧
    (checkRateLimit rlScenarioQ3).allowed = false ∧
    (checkRateLimit rlScenarioQ3).reason = some Scope.globalPerMinute ∧
    0 < (checkRateLimit rlScenarioQ3).retryAfter := by
  refine ⟨?_, ?_, by decide, by decide, by decide, by decide, by decide⟩
  · intro q sc h
    unfold checkRateLimit at h ⊢
    cases hfb : firstBlocking q with
    | none => rw [hfb] at h; simp at h
    | some p =>
      obtain ⟨sc0, w⟩ := p
      rw [hfb] at h
      dsimp only at h ⊢
      simp only [Option.some.injEq] at h
      subst h
      simpa using firstBlockingAux_some q _ sc0 w hfb
  · intro q h
    unfold checkRateLimit at h
    cases hfb : firstBlocking q with
    | none => exact firstBlockingAux_none q _ hfb
    | some p =>
      obtain ⟨sc0, w⟩ := p
      rw [hfb] at h
      dsimp only at h
      simp at h

/-- C1 witness: the general order statements applied to the concrete scenario
queries: the third check is denied by global-per-minute with no earlier scope
violated, and the first check is allowed with no scope violated. -/
theorem check_order_and_per_minute_scenario_witness :
    (scopeWait rlScenarioQ3 Scope.globalPerMinute
        = some (checkRateLimit rlScenarioQ3).retryAfter ∧
      ∃ l1 l2, scopeOrder rlScenarioQ3.tr.triggerType
          = l1 ++ Scope.globalPerMinute :: l2 ∧
        ∀ s2 ∈ l1, scopeWait rlScenarioQ3 s2 = none) ∧
    (∀ sc ∈ scopeOrder rlScenarioQ1.tr.triggerType, scopeWait rlScenarioQ1 sc = none) :=
  ⟨check_order_and_per_minute_scenario.1 rlScenarioQ3 Scope.globalPerMinute (by decide),
   check_order_and_per_minute_scenario.2.1 rlScenarioQ1 (by decide)⟩

/-- State used by the C8 counterexample: one send recorded five seconds ago for
the global, user and mention scopes. -/
def c8State : RLState :=
  { globalSends := [95], userSends := [("u8", [95])],
    mentionSends := [("u8", [95])], triggerSends := [] }

/-- Query used by the C8 counterexample: mention outcome at time 100 with the
default limits, so the global cooldown (wait 10), user cooldown (wait 55) and
mention cooldown (wait 115) are all violated at once. -/
def c8Query : RLQuery :=
  { cfg := defaultRateLimits, triggers := [], st := c8State,
    username := "u8", rank := 1, tr := mentionTR, now := 100 }

/-- C8 counterexample: a denied check whose retry_after (10, the wait of the first
violated scope, the global cooldown) differs from the largest remaining wait among
all violated scopes (115, the mention cooldown wait), refuting the claim that
retry_after always equals that largest wait. -/
theorem retry_not_max_violated_wait :
    (checkRateLimit c8Query).allowed = false ∧
    (checkRateLimit c8Query).retryAfter = 10 ∧
    maxViolatedWait c8Query = 115 ∧
    ¬ (checkRateLimit c8Query).retryAfter = maxViolatedWait c8Query := by
  decide

/-- C8 amended: for every denied admission check, retry_after_seconds is
nonnegative and equals the remaining wait of the first violated scope in the
fixed evaluation order (not the largest wait among all violated scopes). -/
theorem denied_retry_nonneg_first_violated (q : RLQuery)
    (h : (checkRateLimit q).allowed = false) :
    0 ≤ (checkRateLimit q).retryAfter ∧
    ∃ sc, (checkRateLimit q).reason = some sc ∧
      firstBlocking q = some (sc, (checkRateLimit q).retryAfter) := by
  unfold checkRateLimit at h ⊢
  cases hfb : firstBlocking q with
  | none => rw [hfb] at h; simp at h
  | some p =>
    obtain ⟨sc, w⟩ := p
    dsimp only
    refine ⟨?_, sc, rfl, rfl⟩
    exact scopeWait_nonneg q sc w (firstBlockingAux_some q _ sc w hfb).1

/-- C8 amended witness: the amended statement evaluated at the counterexample
query, whose check is denied. -/
theorem denied_retry_nonneg_first_violated_witness :
    0 ≤ (checkRateLimit c8Query).retryAfter ∧
    ∃ sc, (checkRateLimit c8Query).reason = some sc ∧
      firstBlocking c8Query = some (sc, (checkRateLimit c8Query).retryAfter) :=
  denied_retry_nonneg_first_violated c8Query (by decide)

/- ===================== Context manager (modelled from the spec) ===================== -/

/-- Video snapshot value kept by the context manager (fields follow the tests of
the missing models/phase3.py). -/
structure VideoMetadata where
  title : String
  duration : Int
  vtype : String
  queuedBy : String
deriving DecidableEq

/-- Modelled from the spec: context_manager.py is not under src. The manager owns
a chat-history buffer (oldest first) and the current video value. -/
structure CMState where
  history : List (String × String)
  currentVideo : Option VideoMetadata
deriving DecidableEq

/-- Fresh context manager state. -/
def emptyCM : CMState := ⟨[], none⟩

/-- Modelled from the spec: add_chat_message appends a (username, message) entry
unless the username equals the character name; the buffer behaves as a deque with
maxlen equal to the configured capacity, evicting oldest entries on overflow. -/
def addChatMessage (cap : Nat) (botName : String) (st : CMState)
    (username message : String) : CMState :=
  if username == botName then st
  else
    let h := st.history ++ [(username, message)]
    { st with history := h.drop (h.length - cap) }

/-- Modelled from the spec: clear_chat_history empties the buffer. -/
def clearChatHistory (st : CMState) : CMState := { st with history := [] }

/-- Modelled from the spec: get_context returns the current video value and the
most recent maxInPrompt history entries in chronological order. -/
def getContext (maxInPrompt : Nat) (st : CMState) :
    Option VideoMetadata × List (String × String) :=
  (st.currentVideo, st.history.drop (st.history.length - maxInPrompt))

/-- Operations of the context manager exercised by the buffer claim. -/
inductive CMOp where
  | record (username message : String)
  | clear
  | snap
deriving DecidableEq

/-- One operation applied to the state (snapshot reads do not change state). -/
def applyCMOp (cap : Nat) (botName : String) (st : CMState) : CMOp → CMState
  | CMOp.record u m => addChatMessage cap botName st u m
  | CMOp.clear => clearChatHistory st
  | CMOp.snap => st

/-- A sequence of operations run from the fresh state. -/
def runCMOps (cap : Nat) (botName : String) (ops : List CMOp) : CMState :=
  ops.foldl (applyCMOp cap botName) emptyCM

theorem applyCMOp_len (cap : Nat) (botName : String) (st : CMState) (op : CMOp)
    (h : st.history.length ≤ cap) :
    (applyCMOp cap botName st op).history.length ≤ cap := by
  cases op with
  | record u m =>
    show (addChatMessage cap botName st u m).history.length ≤ cap
    unfold addChatMessage
    by_cases hu : (u == botName) = true
    · rw [if_pos hu]; exact h
    · simp only [Bool.not_eq_true] at hu
      rw [if_neg (by simp [hu])]
      simp only [List.length_drop, List.length_append]
      omega
  | clear =>
    show (clearChatHistory st).history.length ≤ cap
    simp [clearChatHistory]
  | snap => exact h

theorem runCMOps_len_aux (cap : Nat) (botName : String) (ops : List CMOp) :
    ∀ st : CMState, st.history.length ≤ cap →
      (ops.foldl (applyCMOp cap botName) st).history.length ≤ cap := by
  induction ops with
  | nil => intro st h; exact h
  | cons op rest ih =>
    intro st h
    exact ih _ (applyCMOp_len cap botName st op h)

theorem runRecords_content (cap : Nat) (botName : String)
    (msgs : List (String × String)) (hbot : ∀ p ∈ msgs, p.1 ≠ botName) :
    (runCMOps cap botName (msgs.map (fun p => CMOp.record p.1 p.2))).history
      = msgs.drop (msgs.length - cap) := by
  unfold runCMOps
  rw [List.foldl_map]
  revert hbot
  induction msgs using List.reverseRecOn with
  | nil => intro hbot; simp [emptyCM]
  | append_singleton ms p ih =>
    intro hbot
    obtain ⟨p1, p2⟩ := p
    rw [List.foldl_append]
    have hms : ∀ q ∈ ms, q.1 ≠ botName := by
      intro q hq
      exact hbot q (List.mem_append.mpr (Or.inl hq))
    have hp : p1 ≠ botName :=
      hbot (p1, p2) (List.mem_append.mpr (Or.inr (List.mem_singleton.mpr rfl)))
    simp only [List.foldl_cons, List.foldl_nil]
    show (addChatMessage cap botName
        (List.foldl (fun x y => applyCMOp cap botName x (CMOp.record y.1 y.2))
          emptyCM ms) p1 p2).history = _
    unfold addChatMessage
    rw [if_neg (by simp [hp])]
    dsimp only
    rw [ih hms]
    have hd : ms.length - cap ≤ ms.length := Nat.sub_le _ _
    rw [← List.drop_append_of_le_length hd]
    rw [List.drop_drop]
    congr 1
    simp only [List.length_append, List.length_drop, List.length_cons,
      List.length_nil]
    omega

/-- The ten insertions of the concrete buffer scenario. -/
def c4Msgs : List (String × String) :=
  [("u1", "m1"), ("u2", "m2"), ("u3", "m3"), ("u4", "m4"), ("u5", "m5"),
   ("u6", "m6"), ("u7", "m7"), ("u8", "m8"), ("u9", "m9"), ("u10", "m10")]

/- ===================== Claim C4 ===================== -/

/-- C4: across every sequence of record, clear and snapshot operations the buffer
length never exceeds the configured capacity; a pure sequence of non-bot
insertions leaves exactly the most recently added entries, in insertion order
(the suffix of the insertion list that fits the capacity); and concretely,
capacity 5 with 10 insertions keeps entries 6 to 10 in order. -/
theorem buffer_capacity_and_content :
    (∀ (cap : Nat) (botName : String) (ops : List CMOp),
        (runCMOps cap botName ops).history.length ≤ cap) ∧
    (∀ (cap : Nat) (botName : String) (msgs : List (String × String)),
        (∀ p ∈ msgs, p.1 ≠ botName) →
          (runCMOps cap botName (msgs.map (fun p => CMOp.record p.1 p.2))).history
            = msgs.drop (msgs.length - cap)) ∧
    (runCMOps 5 "CynthiaRothbot" (c4Msgs.map (fun p => CMOp.record p.1 p.2))).history
      = [("u6", "m6"), ("u7", "m7"), ("u8", "m8"), ("u9", "m9"), ("u10", "m10")] := by
  refine ⟨?_, ?_, by decide⟩
  · intro cap botName ops
    exact runCMOps_len_aux cap botName ops emptyCM (by simp [emptyCM])
  · intro cap botName msgs hbot
    exact runRecords_content cap botName msgs hbot

/-- C4 witness: the content statement applied to the concrete ten insertions with
capacity 5 (the hypothesis that no insertion carries the bot name is discharged
by evaluation). -/
theorem buffer_capacity_and_content_witness :
    (runCMOps 5 "CynthiaRothbot" (c4Msgs.map (fun p => CMOp.record p.1 p.2))).history
      = c4Msgs.drop (c4Msgs.length - 5) :=
  buffer_capacity_and_content.2.1 5 "CynthiaRothbot" c4Msgs
    (by intro p hp; fin_cases hp <;> decide)

/- ===================== Response formatter (embedded from formatter.py) ===================== -/

/-- Formatter configuration: max_message_length (MessageProcessing, default 240)
and the character name (PersonalityConfig, default CynthiaRothbot). -/
structure FormatterCfg where
  maxLength : Nat
  characterName : String
deriving DecidableEq

/-- Default formatter configuration from models/config.py. -/
def defaultFormatterCfg : FormatterCfg :=
  { maxLength := 240, characterName := "CynthiaRothbot" }

/-- Embedded from formatter.py: the first self-reference pattern, the start-anchored
case-insensitive As-name with an optional comma and any following whitespace. -/
def removeSelfRefPattern1 (name text : List Char) : List Char :=
  if isPrefixCI ("as ".data ++ name) text then
    let rest := text.drop (3 + name.length)
    let rest2 :=
      match rest with
      | c :: cs => if c == ',' then cs else rest
      | [] => rest
    rest2.dropWhile isWS
  else text

/-- Embedded from formatter.py: the second self-reference pattern, the
start-anchored case-insensitive As-name followed by whitespace, the word I and
more whitespace. -/
def removeSelfRefPattern2 (name text : List Char) : List Char :=
  if isPrefixCI ("as ".data ++ name) text then
    let rest := text.drop (3 + name.length)
    if (rest.takeWhile isWS).isEmpty then text
    else
      match rest.dropWhile isWS with
      | c :: cs =>
        if c.toLower == 'i' then
          if (cs.takeWhile isWS).isEmpty then text else cs.dropWhile isWS
        else text
      | [] => text
  else text

/-- Embedded from formatter.py, _remove_self_references: both patterns applied in
order, then a final strip. -/
def removeSelfReferences (name text : List Char) : List Char :=
  trimWS (removeSelfRefPattern2 name (removeSelfRefPattern1 name text))

/-- Continuation indicator added by the splitter. -/
def dots : List Char := ['.', '.', '.']

/-- Embedded from formatter.py, _split_response: the while loop with its chunking
and continuation indicators, given fuel (the Python loop terminates because the
chunk size is positive for the configured lengths). -/
def splitAux (maxLen chunkSize : Nat) :
    Nat → List Char → List (List Char) → List (List Char)
  | 0, _, parts => parts
  | Nat.succ n, remaining, parts =>
    if remaining.isEmpty then parts
    else if remaining.length ≤ maxLen then
      parts ++ [if parts.isEmpty then remaining else dots ++ remaining]
    else
      let chunk := remaining.take chunkSize
      let newPart := if parts.isEmpty then chunk ++ dots else dots ++ chunk ++ dots
      splitAux maxLen chunkSize n (remaining.drop chunkSize) (parts ++ [newPart])

/-- Embedded from formatter.py, _split_response entry: chunk size is
max_length - 3 to make room for one continuation indicator. -/
def splitResponse (maxLen : Nat) (text : List Char) : List (List Char) :=
  splitAux maxLen (maxLen - 3) (text.length + 1) text []

/-- Embedded from formatter.py, format_response: empty check, strip,
self-reference removal, then either a single message or the split parts. -/
def formatResponse (cfg : FormatterCfg) (response : String) : List (List Char) :=
  if response.data.isEmpty then []
  else
    let f1 := trimWS response.data
    if f1.isEmpty then []
    else
      let f2 := removeSelfReferences cfg.characterName.data f1
      if f2.length ≤ cfg.maxLength then [f2]
      else splitResponse cfg.maxLength f2

/- ===================== Claim C10 ===================== -/

set_option maxRecDepth 8000 in
/-- C10 (code bug evidence): with the default max_message_length of 240, a
480-character response is split into parts of lengths 240, 243 and 9: the middle
part is a 237-character chunk wrapped in two three-dot continuation indicators
and exceeds the configured maximum by 3, contradicting the formatter
documentation and the bound asserted in the formatter tests. -/
theorem split_part_exceeds_max :
    ((formatResponse defaultFormatterCfg (String.mk (List.replicate 480 'a'))).map
        List.length = [240, 243, 9]) ∧
    ((formatResponse defaultFormatterCfg (String.mk (List.replicate 480 'a'))).any
        (fun part => decide (240 < part.length)) = true) := by
  constructor
  · rfl
  · rfl


/- ===================== LLM manager (embedded from llm_manager.py) ===================== -/

/-- Provider configuration (from models/config.py, class LLMProvider). -/
structure ProviderCfg where
  name : String
  ptype : String
  baseUrl : String
  apiKey : String
  model : String
  maxTokens : Int
  temperature : ℚ
  timeoutSeconds : Int
  fallback : Option String
deriving DecidableEq

/-- Body of the HTTP response as generate_response consumes it: either the
choices list, each carrying its message content, or a malformed body (JSON
decoding failure or missing keys, which the source catches as an exception). -/
inductive ApiBody where
  | malformed
  | choices (cs : List String)
deriving DecidableEq

/-- Outcome of the external HTTP call made by generate_response; the network
call itself is outside the embedding, so its result enters as a value. -/
inductive ApiOutcome where
  | networkError
  | timeoutError
  | httpResponse (status : Nat) (body : ApiBody)
deriving DecidableEq

/-- Provider name generate_response resolves: the default provider when no name
is passed. -/
def resolveName (providerName : Option String) (defaultName : String) : String :=
  match providerName with
  | none => defaultName
  | some n => n

/-- Embedded from llm_manager.py, generate_response: provider resolution (lookup
failure returns none), then the call: network errors, timeouts, non-200
statuses, malformed bodies and empty choices lists all return none; a 200
response with at least one choice returns its first content. -/
def generateResponse (providers : List (String × ProviderCfg))
    (defaultName : String) (providerName : Option String)
    (api : ApiOutcome) : Option String :=
  match providers.find? (fun e => e.1 == resolveName providerName defaultName) with
  | none => none
  | some _ =>
    match api with
    | ApiOutcome.networkError => none
    | ApiOutcome.timeoutError => none
    | ApiOutcome.httpResponse status body =>
      if status ≠ 200 then none
      else
        match body with
        | ApiBody.malformed => none
        | ApiBody.choices [] => none
        | ApiBody.choices (c :: _) => some c

/- ===================== Pipeline (embedded from service.py) ===================== -/

/-- Message that passed the listener filter, with the fields the handler reads. -/
structure FilteredMsg where
  username : String
  msg : List Char
  rank : Int
deriving DecidableEq

/-- Stage at which one run of the handler returned. -/
inductive PipeStage where
  | filteredOut
  | notTriggered
  | rateLimited
  | llmFailed
  | emptyFormat
  | completed
deriving DecidableEq

/-- Observable result of one run of the handler: the stage reached, whether any
part was sent, whether the rate limiter commit (record_response) ran, the
resulting limiter state, the decision available for logging, and the parts. -/
structure PipelineResult where
  stage : PipeStage
  sent : Bool
  committed : Bool
  finalState : RLState
  decision : Option RateLimitDecision
  parts : List (List Char)
deriving DecidableEq

/-- Admission query the handler builds for the rate limiter, from the filtered
message fields, the trigger outcome and the current time. -/
def mkQuery (rl : RateLimitsCfg) (triggers : List TriggerCfg) (st : RLState)
    (f : FilteredMsg) (tr : TriggerResult) (now : ℚ) : RLQuery :=
  { cfg := rl, triggers := triggers, st := st, username := f.username,
    rank := f.rank, tr := tr, now := now }

/-- Embedded from service.py, _handle_chat_message: filter, trigger check, rate
limit check (early return on denial), generation (early return on a falsy
response), formatting (early return on no parts), dispatch of each part when not
in dry-run mode, then record_response exactly when something was sent or the
service is not in dry-run mode. The listener outcome, trigger outcome and
generation outcome enter as values; rate limiting and formatting use the
definitions above. -/
def handleChatMessage (rl : RateLimitsCfg) (triggers : List TriggerCfg)
    (fmt : FormatterCfg) (dryRun : Bool) (st : RLState) (now : ℚ)
    (filtered : Option FilteredMsg) (tr : TriggerResult)
    (llmResponse : Option String) : PipelineResult :=
  match filtered with
  | none => ⟨PipeStage.filteredOut, false, false, st, none, []⟩
  | some f =>
    if tr.triggered = false then
      ⟨PipeStage.notTriggered, false, false, st, none, []⟩
    else
      let d := checkRateLimit (mkQuery rl triggers st f tr now)
      if d.allowed = false then
        ⟨PipeStage.rateLimited, false, false, st, some d, []⟩
      else
        match llmResponse with
        | none => ⟨PipeStage.llmFailed, false, false, st, some d, []⟩
        | some resp =>
          if resp == "" then ⟨PipeStage.llmFailed, false, false, st, some d, []⟩
          else
            let parts := formatResponse fmt resp
            if parts.isEmpty then
              ⟨PipeStage.emptyFormat, false, false, st, some d, []⟩
            else
              let sent := !dryRun
              let committed := sent || !dryRun
              let st2 := if committed then recordResponse st f.username tr now else st
              ⟨PipeStage.completed, sent, committed, st2, some d, parts⟩

/- ===================== Claim C3 ===================== -/

/-- C3: in every run of the handler, record_response runs only when a response
was actually dispatched: a commit implies the service is not in dry-run mode and
the admission check of this very run allowed the send; and in dry-run mode no
run of the handler ever commits or changes the rate limiter state. -/
theorem commit_only_when_dispatched (rl : RateLimitsCfg)
    (triggers : List TriggerCfg) (fmt : FormatterCfg) (dryRun : Bool)
    (st : RLState) (now : ℚ) (filtered : Option FilteredMsg)
    (tr : TriggerResult) (llmResponse : Option String) :
    ((handleChatMessage rl triggers fmt dryRun st now filtered tr
        llmResponse).committed = true →
      dryRun = false ∧
      ∃ f, filtered = some f ∧
        (checkRateLimit (mkQuery rl triggers st f tr now)).allowed = true) ∧
    (dryRun = true →
      (handleChatMessage rl triggers fmt dryRun st now filtered tr
        llmResponse).committed = false ∧
      (handleChatMessage rl triggers fmt dryRun st now filtered tr
        llmResponse).finalState = st) := by
  unfold handleChatMessage
  cases filtered with
  | none => simp
  | some f =>
    dsimp only
    by_cases ht : tr.triggered = false
    · rw [if_pos ht]
      simp
    · rw [if_neg ht]
      by_cases hd : (checkRateLimit (mkQuery rl triggers st f tr now)).allowed = false
      · rw [if_pos hd]
        simp
      · rw [if_neg hd]
        cases llmResponse with
        | none => simp
        | some resp =>
          dsimp only
          by_cases hr : (resp == "") = true
          · rw [if_pos hr]
            simp
          · rw [if_neg hr]
            by_cases hp : (formatResponse fmt resp).isEmpty = true
            · rw [if_pos hp]
              simp
            · rw [if_neg hp]
              constructor
              · intro hc
                have hdr : dryRun = false := by
                  cases hdr2 : dryRun
                  · rfl
                  · rw [hdr2] at hc
                    simp at hc
                refine ⟨hdr, f, rfl, ?_⟩
                cases hall : (checkRateLimit (mkQuery rl triggers st f tr now)).allowed
                · exact absurd hall hd
                · rfl
              · intro hdr
                subst hdr
                simp

/-- C3 witness: a concrete run that commits does so with dry-run off and an
allowing check, and the same concrete run with dry-run on leaves the rate
limiter state untouched and uncommitted. -/
theorem commit_only_when_dispatched_witness :
    ((false : Bool) = false ∧
      ∃ f, (some (FilteredMsg.mk "u1" [] 1) : Option FilteredMsg) = some f ∧
        (checkRateLimit (mkQuery defaultRateLimits [] emptyRLState f mentionTR
          0)).allowed = true) ∧
    ((handleChatMessage defaultRateLimits [] defaultFormatterCfg true
        emptyRLState 0 (some (FilteredMsg.mk "u1" [] 1)) mentionTR
        (some "hello")).committed = false ∧
      (handleChatMessage defaultRateLimits [] defaultFormatterCfg true
        emptyRLState 0 (some (FilteredMsg.mk "u1" [] 1)) mentionTR
        (some "hello")).finalState = emptyRLState) :=
  ⟨(commit_only_when_dispatched defaultRateLimits [] defaultFormatterCfg false
      emptyRLState 0 (some (FilteredMsg.mk "u1" [] 1)) mentionTR
      (some "hello")).1 (by decide),
   (commit_only_when_dispatched defaultRateLimits [] defaultFormatterCfg true
      emptyRLState 0 (some (FilteredMsg.mk "u1" [] 1)) mentionTR
      (some "hello")).2 rfl⟩

/- ===================== Claim C5 ===================== -/

/-- C5: every external generation failure (network error, timeout, non-200
status, malformed body, empty choices list) makes generate_response return none
rather than raise, and a run of the handler whose generation produced no
response stops for that message: nothing is sent, nothing is committed, the rate
limiter state is unchanged, and no parts are produced. -/
theorem generation_failures_recovered (providers : List (String × ProviderCfg))
    (defaultName : String) (providerName : Option String) (status : Nat)
    (body : ApiBody) (hstatus : status ≠ 200) (rl : RateLimitsCfg)
    (triggers : List TriggerCfg) (fmt : FormatterCfg) (dryRun : Bool)
    (st : RLState) (now : ℚ) (filtered : Option FilteredMsg)
    (tr : TriggerResult) :
    generateResponse providers defaultName providerName ApiOutcome.networkError
        = none ∧
    generateResponse providers defaultName providerName ApiOutcome.timeoutError
        = none ∧
    generateResponse providers defaultName providerName
        (ApiOutcome.httpResponse status body) = none ∧
    generateResponse providers defaultName providerName
        (ApiOutcome.httpResponse 200 ApiBody.malformed) = none ∧
    generateResponse providers defaultName providerName
        (ApiOutcome.httpResponse 200 (ApiBody.choices [])) = none ∧
    (handleChatMessage rl triggers fmt dryRun st now filtered tr none).sent
        = false ∧
    (handleChatMessage rl triggers fmt dryRun st now filtered tr none).committed
        = false ∧
    (handleChatMessage rl triggers fmt dryRun st now filtered tr none).finalState
        = st ∧
    (handleChatMessage rl triggers fmt dryRun st now filtered tr none).parts
        = [] := by
  have hpipe : (handleChatMessage rl triggers fmt dryRun st now filtered tr
        none).sent = false ∧
      (handleChatMessage rl triggers fmt dryRun st now filtered tr
        none).committed = false ∧
      (handleChatMessage rl triggers fmt dryRun st now filtered tr
        none).finalState = st ∧
      (handleChatMessage rl triggers fmt dryRun st now filtered tr
        none).parts = [] := by
    unfold handleChatMessage
    cases filtered with
    | none => simp
    | some f =>
      dsimp only
      by_cases ht : tr.triggered = false
      · rw [if_pos ht]
        simp
      · rw [if_neg ht]
        by_cases hd : (checkRateLimit (mkQuery rl triggers st f tr now)).allowed
            = false
        · rw [if_pos hd]
          simp
        · rw [if_neg hd]
          simp
  refine ⟨?_, ?_, ?_, ?_, ?_, hpipe.1, hpipe.2.1, hpipe.2.2.1, hpipe.2.2.2⟩
  · unfold generateResponse
    cases providers.find? (fun e => e.1 == resolveName providerName defaultName)
    · rfl
    · rfl
  · unfold generateResponse
    cases providers.find? (fun e => e.1 == resolveName providerName defaultName)
    · rfl
    · rfl
  · unfold generateResponse
    cases providers.find? (fun e => e.1 == resolveName providerName defaultName)
    · rfl
    · dsimp only
      rw [if_pos hstatus]
  · unfold generateResponse
    cases providers.find? (fun e => e.1 == resolveName providerName defaultName)
    · rfl
    · rfl
  · unfold generateResponse
    cases providers.find? (fun e => e.1 == resolveName providerName defaultName)
    · rfl
    · rfl

/-- C5 witness: the failure statements evaluated at a concrete provider table and
a concrete 500 response, and the stop behavior at a concrete run. -/
theorem generation_failures_recovered_witness :
    generateResponse [("local", ProviderCfg.mk "local" "openai_compatible"
        "http://localhost" "key" "model-a" 256 1 10 none)] "local" none
        ApiOutcome.networkError = none ∧
    generateResponse [("local", ProviderCfg.mk "local" "openai_compatible"
        "http://localhost" "key" "model-a" 256 1 10 none)] "local" none
        ApiOutcome.timeoutError = none ∧
    generateResponse [("local", ProviderCfg.mk "local" "openai_compatible"
        "http://localhost" "key" "model-a" 256 1 10 none)] "local" none
        (ApiOutcome.httpResponse 500 (ApiBody.choices ["oops"])) = none ∧
    generateResponse [("local", ProviderCfg.mk "local" "openai_compatible"
        "http://localhost" "key" "model-a" 256 1 10 none)] "local" none
        (ApiOutcome.httpResponse 200 ApiBody.malformed) = none ∧
    generateResponse [("local", ProviderCfg.mk "local" "openai_compatible"
        "http://localhost" "key" "model-a" 256 1 10 none)] "local" none
        (ApiOutcome.httpResponse 200 (ApiBody.choices [])) = none ∧
    (handleChatMessage defaultRateLimits [] defaultFormatterCfg false
        emptyRLState 0 (some (FilteredMsg.mk "u1" [] 1)) mentionTR none).sent
        = false ∧
    (handleChatMessage defaultRateLimits [] defaultFormatterCfg false
        emptyRLState 0 (some (FilteredMsg.mk "u1" [] 1)) mentionTR
        none).committed = false ∧
    (handleChatMessage defaultRateLimits [] defaultFormatterCfg false
        emptyRLState 0 (some (FilteredMsg.mk "u1" [] 1)) mentionTR
        none).finalState = emptyRLState ∧
    (handleChatMessage defaultRateLimits [] defaultFormatterCfg false
        emptyRLState 0 (some (FilteredMsg.mk "u1" [] 1)) mentionTR none).parts
        = [] :=
  generation_failures_recovered
    [("local", ProviderCfg.mk "local" "openai_compatible" "http://localhost"
      "key" "model-a" 256 1 10 none)] "local" none 500
    (ApiBody.choices ["oops"]) (by decide) defaultRateLimits []
    defaultFormatterCfg false emptyRLState 0
    (some (FilteredMsg.mk "u1" [] 1)) mentionTR

/- ===================== Configuration validation (embedded from config.py) ===================== -/

/-- Message processing configuration (from models/config.py, class
MessageProcessing), with the numeric bounds of its pydantic fields checked by
messageProcessingFieldsOk. -/
structure MessageProcessingCfg where
  maxMessageLength : Int
  splitDelaySeconds : Int
  filterEmoji : Bool
  maxEmojiPerMessage : Int
deriving DecidableEq

/-- Context configuration (from models/config.py, class ContextConfig). -/
structure ContextCfg where
  chatHistoryBuffer : Int
  includeVideoContext : Bool
  includeChatHistory : Bool
deriving DecidableEq

/-- The slice of LLMConfig that validation reads (from models/config.py). -/
structure LLMConfigM where
  llmProviders : List (String × ProviderCfg)
  defaultProvider : String
  triggers : List TriggerCfg
  rateLimits : RateLimitsCfg
  messageProcessing : MessageProcessingCfg
  contextCfg : ContextCfg
deriving DecidableEq

/-- Field bounds of class LLMProvider (max_tokens 1..4096, temperature 0..2,
timeout_seconds 1..60), as declared on its pydantic fields. -/
def providerFieldsOk (p : ProviderCfg) : Bool :=
  decide (1 ≤ p.maxTokens) && decide (p.maxTokens ≤ 4096) &&
  decide (0 ≤ p.temperature) && decide (p.temperature ≤ 2) &&
  decide (1 ≤ p.timeoutSeconds) && decide (p.timeoutSeconds ≤ 60)

/-- Field bounds of class Trigger (probability 0..1, cooldown at least 0, per-hour
cap at least 0, priority 1..10), as declared on its pydantic fields. -/
def triggerFieldsOk (t : TriggerCfg) : Bool :=
  decide (0 ≤ t.probability) && decide (t.probability ≤ 1) &&
  decide (0 ≤ t.cooldownSeconds) && decide (0 ≤ t.maxResponsesPerHour) &&
  decide (1 ≤ t.priority) && decide (t.priority ≤ 10)

/-- Field bounds of class RateLimits on its non-negative thresholds and the two
admin multipliers (cooldown multiplier 0..1, limit multiplier at least 1); the
count caps are naturals here, so their lower bounds hold by type. -/
def rateLimitsFieldsOk (r : RateLimitsCfg) : Bool :=
  decide (0 ≤ r.globalCooldownSeconds) && decide (0 ≤ r.userCooldownSeconds) &&
  decide (0 ≤ r.mentionCooldownSeconds) &&
  decide (0 ≤ r.adminCooldownMultiplier) &&
  decide (r.adminCooldownMultiplier ≤ 1) && decide (1 ≤ r.adminLimitMultiplier)

/-- Field bounds of class MessageProcessing (max_message_length 1..255,
split_delay_seconds 0..10, max_emoji_per_message at least 0). -/
def messageProcessingFieldsOk (m : MessageProcessingCfg) : Bool :=
  decide (1 ≤ m.maxMessageLength) && decide (m.maxMessageLength ≤ 255) &&
  decide (0 ≤ m.splitDelaySeconds) && decide (m.splitDelaySeconds ≤ 10) &&
  decide (0 ≤ m.maxEmojiPerMessage)

/-- Field bounds of class ContextConfig (chat_history_buffer 0..100). -/
def contextFieldsOk (cc : ContextCfg) : Bool :=
  decide (0 ≤ cc.chatHistoryBuffer) && decide (cc.chatHistoryBuffer ≤ 100)

/-- All pydantic field bounds of the configuration models, which pydantic
enforces when the configuration is constructed at load time. -/
def pydanticOk (c : LLMConfigM) : Bool :=
  c.llmProviders.all (fun pr => providerFieldsOk pr.2) &&
  c.triggers.all triggerFieldsOk &&
  rateLimitsFieldsOk c.rateLimits &&
  messageProcessingFieldsOk c.messageProcessing &&
  contextFieldsOk c.contextCfg

/-- Embedded from config.py, validate_config: the error reported when the default
provider is not among llm_providers. -/
def defaultProviderErrors (c : LLMConfigM) : List String :=
  if (c.llmProviders.find? (fun e => e.1 == c.defaultProvider)).isSome then []
  else ["default provider not found in llm_providers"]

/-- Embedded from config.py, validate_config: one error per provider whose
non-empty fallback names a provider that does not exist (an empty fallback is
falsy in the source and skipped). -/
def fallbackErrors (c : LLMConfigM) : List String :=
  c.llmProviders.filterMap (fun pr =>
    match pr.2.fallback with
    | none => none
    | some fb =>
      if fb == "" then none
      else if (c.llmProviders.find? (fun x => x.1 == fb)).isSome then none
      else some "provider has invalid fallback")

/-- Embedded from config.py, validate_config: one error per trigger whose
non-empty llm_provider names a provider that does not exist. -/
def triggerProviderErrors (c : LLMConfigM) : List String :=
  c.triggers.filterMap (fun t =>
    match t.llmProvider with
    | none => none
    | some lp =>
      if lp == "" then none
      else if (c.llmProviders.find? (fun x => x.1 == lp)).isSome then none
      else some "trigger has invalid llm_provider")

/-- Embedded from config.py, validate_config: collects the three error groups in
source order and returns is_valid together with the errors. -/
def validateConfig (c : LLMConfigM) : Bool × List String :=
  ((defaultProviderErrors c ++ fallbackErrors c ++ triggerProviderErrors c).isEmpty,
   defaultProviderErrors c ++ fallbackErrors c ++ triggerProviderErrors c)

/-- Modelled from the spec: a syntactic well-formedness check standing in for
re.compile succeeding on a pattern (balanced groups and no dangling escape); the
component that compiles the patterns at load time is not under src. -/
def parenBalance : List Char → Nat → Bool
  | [], d => d == 0
  | c :: cs, d =>
    if c == '(' then parenBalance cs (d + 1)
    else if c == ')' then
      match d with
      | 0 => false
      | Nat.succ d2 => parenBalance cs d2
    else parenBalance cs d

/-- Modelled from the spec: pattern well-formedness (see parenBalance). -/
def regexWellFormed (p : String) : Bool :=
  parenBalance p.data 0 &&
    ((p.data.reverse.takeWhile (fun c => c == '\\')).length % 2 == 0)

/-- Modelled from the spec: the service refuses to run unless the pydantic field
bounds hold, validate_config reports no errors, and every trigger pattern
compiles. -/
def startupValid (c : LLMConfigM) : Bool :=
  pydanticOk c && (validateConfig c).1 &&
  c.triggers.all (fun t => t.patterns.all regexWellFormed)

theorem validateConfig_fst (c : LLMConfigM) :
    (validateConfig c).1 = (validateConfig c).2.isEmpty := rfl

theorem isEmpty_false_of_mem {α : Type} (l : List α) (x : α) (h : x ∈ l) :
    l.isEmpty = false := by
  cases l with
  | nil => simp at h
  | cons a as => rfl

theorem all_eq_false_of_mem {α : Type} (l : List α) (p : α → Bool) (x : α)
    (hx : x ∈ l) (hp : p x = false) : l.all p = false := by
  by_contra hAll
  rw [Bool.not_eq_false] at hAll
  have hone := List.all_eq_true.mp hAll x hx
  rw [hp] at hone
  exact Bool.false_ne_true hone

theorem startupValid_false_of_validate (c : LLMConfigM)
    (h : (validateConfig c).1 = false) : startupValid c = false := by
  simp [startupValid, h]

theorem startupValid_false_of_pydantic (c : LLMConfigM)
    (h : pydanticOk c = false) : startupValid c = false := by
  simp [startupValid, h]

/- ===================== Claim C6 ===================== -/

/-- C6: configuration validation at load time rejects every configuration with a
malformed trigger pattern, an unknown default, fallback or trigger provider
reference, or an out-of-range numeric field: validate_config reports the invalid
reference cases, pydantic field bounds reject the numeric cases, and in every
case the startup acceptance predicate is false, so the service refuses to run. -/
theorem config_faults_fatal (c : LLMConfigM) :
    ((∃ t ∈ c.triggers, ∃ p ∈ t.patterns, regexWellFormed p = false) →
        startupValid c = false) ∧
    ((c.llmProviders.find? (fun e => e.1 == c.defaultProvider)) = none →
        (validateConfig c).1 = false ∧ startupValid c = false) ∧
    ((∃ pr ∈ c.llmProviders, ∃ fb, pr.2.fallback = some fb ∧ fb ≠ "" ∧
        (c.llmProviders.find? (fun x => x.1 == fb)) = none) →
        (validateConfig c).1 = false ∧ startupValid c = false) ∧
    ((∃ t ∈ c.triggers, ∃ lp, t.llmProvider = some lp ∧ lp ≠ "" ∧
        (c.llmProviders.find? (fun x => x.1 == lp)) = none) →
        (validateConfig c).1 = false ∧ startupValid c = false) ∧
    (((∃ t ∈ c.triggers, triggerFieldsOk t = false) ∨
      (∃ pr ∈ c.llmProviders, providerFieldsOk pr.2 = false) ∨
      rateLimitsFieldsOk c.rateLimits = false ∨
      messageProcessingFieldsOk c.messageProcessing = false ∨
      contextFieldsOk c.contextCfg = false) →
        startupValid c = false) := by
  refine ⟨?_, ?_, ?_, ?_, ?_⟩
  · intro h
    obtain ⟨t, ht, p, hp, hbad⟩ := h
    have hPats : (c.triggers.all (fun t => t.patterns.all regexWellFormed)) = false :=
      all_eq_false_of_mem _ _ t ht (all_eq_false_of_mem _ _ p hp hbad)
    simp [startupValid, hPats]
  · intro hfind
    have hmem : "default provider not found in llm_providers"
        ∈ (validateConfig c).2 := by
      apply List.mem_append.mpr
      left
      apply List.mem_append.mpr
      left
      unfold defaultProviderErrors
      rw [hfind]
      simp
    have h2 : (validateConfig c).1 = false := by
      rw [validateConfig_fst]
      exact isEmpty_false_of_mem _ _ hmem
    exact ⟨h2, startupValid_false_of_validate c h2⟩
  · intro h
    obtain ⟨pr, hpr, fb, hfb, hne, hnf⟩ := h
    have hmemf : "provider has invalid fallback" ∈ fallbackErrors c := by
      apply List.mem_filterMap.mpr
      refine ⟨pr, hpr, ?_⟩
      rw [hfb]
      dsimp only
      have hbe : (fb == "") = false := beq_eq_false_iff_ne.mpr hne
      simp [hbe, hnf]
    have hmem : "provider has invalid fallback" ∈ (validateConfig c).2 := by
      apply List.mem_append.mpr
      left
      apply List.mem_append.mpr
      right
      exact hmemf
    have h2 : (validateConfig c).1 = false := by
      rw [validateConfig_fst]
      exact isEmpty_false_of_mem _ _ hmem
    exact ⟨h2, startupValid_false_of_validate c h2⟩
  · intro h
    obtain ⟨t, ht, lp, hlp, hne, hnf⟩ := h
    have hmemt : "trigger has invalid llm_provider" ∈ triggerProviderErrors c := by
      apply List.mem_filterMap.mpr
      refine ⟨t, ht, ?_⟩
      rw [hlp]
      dsimp only
      have hbe : (lp == "") = false := beq_eq_false_iff_ne.mpr hne
      simp [hbe, hnf]
    have hmem : "trigger has invalid llm_provider" ∈ (validateConfig c).2 :=
      List.mem_append.mpr (Or.inr hmemt)
    have h2 : (validateConfig c).1 = false := by
      rw [validateConfig_fst]
      exact isEmpty_false_of_mem _ _ hmem
    exact ⟨h2, startupValid_false_of_validate c h2⟩
  · intro h
    apply startupValid_false_of_pydantic
    rcases h with htrig | hprov | hrl | hmp | hctx
    · obtain ⟨t, ht, hbad⟩ := htrig
      have : c.triggers.all triggerFieldsOk = false :=
        all_eq_false_of_mem _ _ t ht hbad
      simp [pydanticOk, this]
    · obtain ⟨pr, hpr, hbad⟩ := hprov
      have : c.llmProviders.all (fun pr => providerFieldsOk pr.2) = false :=
        all_eq_false_of_mem _ _ pr hpr hbad
      simp [pydanticOk, this]
    · simp [pydanticOk, hrl]
    · simp [pydanticOk, hmp]
    · simp [pydanticOk, hctx]

/-- Provider with valid field values, used in the witness configurations. -/
def okProviderCfg : ProviderCfg :=
  ProviderCfg.mk "local" "openai_compatible" "http://localhost" "key" "model-a"
    256 1 10 none

/-- Provider whose fallback names a provider that does not exist. -/
def ghostFallbackProvider : ProviderCfg :=
  { okProviderCfg with fallback := some "ghost" }

/-- Message processing settings with valid field values. -/
def okMessageProcessing : MessageProcessingCfg := ⟨240, 2, false, 3⟩

/-- Context settings with valid field values. -/
def okContextCfg : ContextCfg := ⟨30, true, true⟩

/-- Trigger with valid field values, used in the witness configurations. -/
def okTrigger : TriggerCfg :=
  TriggerCfg.mk "toddy" ["toddy"] 1 300 "" none 10 8 true none

/-- Configuration whose only trigger has an unbalanced pattern. -/
def badRegexConfig : LLMConfigM :=
  { llmProviders := [("local", okProviderCfg)], defaultProvider := "local",
    triggers := [{ okTrigger with patterns := ["("] }],
    rateLimits := defaultRateLimits, messageProcessing := okMessageProcessing,
    contextCfg := okContextCfg }

/-- Configuration whose default provider is not configured. -/
def unknownDefaultConfig : LLMConfigM :=
  { llmProviders := [("local", okProviderCfg)], defaultProvider := "missing",
    triggers := [], rateLimits := defaultRateLimits,
    messageProcessing := okMessageProcessing, contextCfg := okContextCfg }

/-- Configuration with a provider whose fallback reference is unknown. -/
def badFallbackConfig : LLMConfigM :=
  { llmProviders := [("local", ghostFallbackProvider)],
    defaultProvider := "local", triggers := [],
    rateLimits := defaultRateLimits, messageProcessing := okMessageProcessing,
    contextCfg := okContextCfg }

/-- Configuration with a trigger whose provider reference is unknown. -/
def badTriggerProviderConfig : LLMConfigM :=
  { llmProviders := [("local", okProviderCfg)], defaultProvider := "local",
    triggers := [{ okTrigger with llmProvider := some "ghost" }],
    rateLimits := defaultRateLimits, messageProcessing := okMessageProcessing,
    contextCfg := okContextCfg }

/-- Configuration with a trigger priority outside 1..10. -/
def badRangeConfig : LLMConfigM :=
  { llmProviders := [("local", okProviderCfg)], defaultProvider := "local",
    triggers := [{ okTrigger with priority := 99 }],
    rateLimits := defaultRateLimits, messageProcessing := okMessageProcessing,
    contextCfg := okContextCfg }

/-- C6 witness: each fault class exhibited on a concrete configuration is
rejected: malformed pattern, unknown default provider, unknown fallback, unknown
trigger provider, out-of-range trigger priority. -/
theorem config_faults_fatal_witness :
    startupValid badRegexConfig = false ∧
    ((validateConfig unknownDefaultConfig).1 = false ∧
      startupValid unknownDefaultConfig = false) ∧
    ((validateConfig badFallbackConfig).1 = false ∧
      startupValid badFallbackConfig = false) ∧
    ((validateConfig badTriggerProviderConfig).1 = false ∧
      startupValid badTriggerProviderConfig = false) ∧
    startupValid badRangeConfig = false :=
  ⟨(config_faults_fatal badRegexConfig).1
      ⟨{ okTrigger with patterns := ["("] }, by decide, "(", by decide, by decide⟩,
   (config_faults_fatal unknownDefaultConfig).2.1 (by decide),
   (config_faults_fatal badFallbackConfig).2.2.1
      ⟨("local", ghostFallbackProvider), by decide, "ghost", rfl, by decide,
        by decide⟩,
   (config_faults_fatal badTriggerProviderConfig).2.2.2.1
      ⟨{ okTrigger with llmProvider := some "ghost" }, by decide, "ghost", rfl,
        by decide, by decide⟩,
   (config_faults_fatal badRangeConfig).2.2.2.2
      (Or.inl ⟨{ okTrigger with priority := 99 }, by decide, by decide⟩)⟩
